import Mathlib

/-!
Shallow embedding of the grading route handler
`src/app/api/teacher/assignments/[id]/submissions/[submissionId]/grade/route.ts`
(the `POST` export) together with the persistent state it touches
(assignments with embedded submissions, teachers, notifications).

External effects are modelled explicitly:
* the cookie store is the request's `cookieToken` field;
* `verify(token, JWT_SECRET)` either throws (modelled `verifyResult = none`)
  or yields the decoded payload (`some payload`);
* `request.json()` either throws (`body = none`) or yields the parsed body;
* each fallible store operation (`connectToDatabase`, `Assignment.findById`,
  `assignment.save`, `Teacher.findById`, `Notification.create`) may throw,
  controlled by a `Faults` flag; a throw lands in the handler's `catch`.
-/

/-- A JSON-like value, used for the body's `grade` field (which the code
never type-checks). -/
inductive JsonValue where
  | jnull
  | jbool (b : Bool)
  | jnum (n : Int)
  | jstr (s : String)
  deriving DecidableEq, Repr

/-- The JWT payload shape the handler decodes (`userId`, `role`). -/
structure JwtPayload where
  userId : String
  role : String
  deriving DecidableEq, Repr

/-- Parsed request body.  `grade = none` models `grade === undefined`
(the field absent); `feedback = none` models an absent feedback field and
`some ""` an empty string — both are falsy in `!feedback`. -/
structure Body where
  grade : Option JsonValue
  feedback : Option String
  deriving DecidableEq, Repr

/-- An embedded submission sub-document of an assignment. -/
structure Submission where
  _id : String
  studentId : String
  grade : Option JsonValue
  feedback : Option String
  status : String
  gradedAt : Option Nat
  deriving DecidableEq, Repr

/-- The assignment aggregate root. -/
structure Assignment where
  _id : String
  teacherId : String
  title : String
  submissions : List Submission
  deriving DecidableEq, Repr

/-- A teacher record (the fields the handler reads). -/
structure Teacher where
  _id : String
  firstName : String
  lastName : String
  deriving DecidableEq, Repr

/-- A notification record, with the fields `Notification.create` receives. -/
structure Notification where
  recipientId : String
  recipientModel : String
  senderId : String
  senderModel : String
  ntype : String
  message : String
  relatedDocId : String
  read : Bool
  deriving DecidableEq, Repr

/-- The persistent store: assignment, teacher and notification collections. -/
structure DB where
  assignments : List Assignment
  teachers : List Teacher
  notifications : List Notification
  deriving DecidableEq, Repr

/-- Which store operations throw during this request. -/
structure Faults where
  connectFails : Bool
  findAssignmentFails : Bool
  saveFails : Bool
  findTeacherFails : Bool
  createNotificationFails : Bool
  deriving DecidableEq, Repr

/-- No store operation throws. -/
def noFaults : Faults :=
  { connectFails := false, findAssignmentFails := false, saveFails := false,
    findTeacherFails := false, createNotificationFails := false }

/-- One incoming request: route params, cookie, and the outcomes of the two
request-scoped effects (token verification, JSON body parsing). -/
structure Request where
  assignmentId : String
  submissionId : String
  cookieToken : Option String
  verifyResult : Option JwtPayload
  body : Option Body
  deriving DecidableEq, Repr

/-- The JSON response the handler produces. -/
structure Response where
  status : Nat
  success : Bool
  error : Option String
  message : Option String
  submission : Option Submission
  deriving DecidableEq, Repr

/-- `NextResponse.json({success:false, error}, {status})`. -/
def errResponse (st : Nat) (msg : String) : Response :=
  { status := st, success := false, error := some msg,
    message := none, submission := none }

/-- The generic catch-all response: 500 "Failed to grade submission". -/
def serverError : Response :=
  errResponse 500 "Failed to grade submission"

/-- The 200 success response carrying the updated submission. -/
def successResponse (s : Submission) : Response :=
  { status := 200, success := true, error := none,
    message := some "Submission graded successfully", submission := some s }

/-- JavaScript truthiness of the `feedback` field (`!feedback` is false
exactly when feedback is a present, non-empty string). -/
def feedbackTruthy : Option String → Bool
  | none => false
  | some s => !(s == "")

/-- `Assignment.findById` (successful call): first assignment with this id. -/
def findAssignment (db : DB) (aid : String) : Option Assignment :=
  db.assignments.find? (fun a => a._id == aid)

/-- `Teacher.findById` (successful call): first teacher with this id. -/
def findTeacher (db : DB) (tid : String) : Option Teacher :=
  db.teachers.find? (fun t => t._id == tid)

/-- `assignment.submissions.id(submissionId)`: the embedded sub-document
with this id. -/
def findSubmission (a : Assignment) (sid : String) : Option Submission :=
  a.submissions.find? (fun s => s._id == sid)

/-- The in-place mutation of the found submission:
`grade`, `feedback`, `status = "graded"`, `gradedAt = new Date()`. -/
def gradeSubmission (s : Submission) (g : JsonValue) (fb : String)
    (now : Nat) : Submission :=
  { s with grade := some g, feedback := some fb,
           status := "graded", gradedAt := some now }

/-- The assignment's submission list after the mutation (every sub-document
with the matching id is the mutated one, the rest unchanged). -/
def updateSubmissions (subs : List Submission) (sid : String) (g : JsonValue)
    (fb : String) (now : Nat) : List Submission :=
  subs.map (fun s => if s._id == sid then gradeSubmission s g fb now else s)

/-- `assignment.save()` (successful call): full replace of the aggregate
with this id in the store. -/
def saveAssignment (db : DB) (a : Assignment) : DB :=
  { db with assignments :=
      db.assignments.map (fun x => if x._id == a._id then a else x) }

/-- The notification document built for `Notification.create`. -/
def mkNotification (t : Teacher) (teacherId studentId title docId : String) :
    Notification :=
  { recipientId := studentId, recipientModel := "Student",
    senderId := teacherId, senderModel := "Teacher",
    ntype := "assignment_graded",
    message := t.firstName ++ " " ++ t.lastName ++
      " has graded your assignment \"" ++ title ++ "\"",
    relatedDocId := docId, read := false }

/-- The assignment aggregate after the in-memory mutation of the found
submission (`submission.grade = ...` through `submission.gradedAt = ...`,
seen through the aggregate that `assignment.save()` persists). -/
def gradedAssignment (a : Assignment) (sid : String) (g : JsonValue)
    (fb : String) (now : Nat) : Assignment :=
  { a with submissions := updateSubmissions a.submissions sid g fb now }

/-- The store after the successful `assignment.save()` of the graded
aggregate. -/
def savedDB (db : DB) (a : Assignment) (sid : String) (g : JsonValue)
    (fb : String) (now : Nat) : DB :=
  saveAssignment db (gradedAssignment a sid g fb now)

/-- The `POST` handler of the grading route, as a function from the request,
the store, the fault pattern and the current time to the response and the
store after the request. -/
def POST (req : Request) (db : DB) (f : Faults) (now : Nat) :
    Response × DB :=
  match req.cookieToken with
  | none => (errResponse 401 "Unauthorized", db)
  | some _ =>
    match req.verifyResult with
    | none => (errResponse 401 "Invalid token", db)
    | some decoded =>
      if decoded.role ≠ "teacher" then
        (errResponse 403 "Access denied - only teachers can grade assignments",
          db)
      else
        match req.body with
        | none => (serverError, db)
        | some body =>
          if body.grade = none ∨ feedbackTruthy body.feedback = false then
            (errResponse 400 "Grade and feedback are required", db)
          else
            if f.connectFails then (serverError, db)
            else if f.findAssignmentFails then (serverError, db)
            else
              match findAssignment db req.assignmentId with
              | none => (errResponse 404 "Assignment not found", db)
              | some assignment =>
                if assignment.teacherId ≠ decoded.userId then
                  (errResponse 403 "Not authorized to grade this assignment",
                    db)
                else
                  match findSubmission assignment req.submissionId with
                  | none => (errResponse 404 "Submission not found", db)
                  | some submission =>
                    if f.saveFails then (serverError, db)
                    else if f.findTeacherFails then
                      (serverError,
                        savedDB db assignment req.submissionId
                          (body.grade.getD JsonValue.jnull)
                          (body.feedback.getD "") now)
                    else
                      match findTeacher
                          (savedDB db assignment req.submissionId
                            (body.grade.getD JsonValue.jnull)
                            (body.feedback.getD "") now) decoded.userId with
                      | none =>
                        (successResponse
                          (gradeSubmission submission
                            (body.grade.getD JsonValue.jnull)
                            (body.feedback.getD "") now),
                          savedDB db assignment req.submissionId
                            (body.grade.getD JsonValue.jnull)
                            (body.feedback.getD "") now)
                      | some teacher =>
                        if f.createNotificationFails then
                          (serverError,
                            savedDB db assignment req.submissionId
                              (body.grade.getD JsonValue.jnull)
                              (body.feedback.getD "") now)
                        else
                          (successResponse
                            (gradeSubmission submission
                              (body.grade.getD JsonValue.jnull)
                              (body.feedback.getD "") now),
                            { savedDB db assignment req.submissionId
                                (body.grade.getD JsonValue.jnull)
                                (body.feedback.getD "") now
                              with notifications :=
                                (savedDB db assignment req.submissionId
                                  (body.grade.getD JsonValue.jnull)
                                  (body.feedback.getD "") now).notifications ++
                                  [mkNotification teacher decoded.userId
                                    submission.studentId assignment.title
                                    assignment._id] })

/-! ### Concrete fixtures used by counterexamples and witnesses -/

/-- A submission awaiting grading. -/
def sub0 : Submission :=
  { _id := "s1", studentId := "stu1", grade := none, feedback := none,
    status := "submitted", gradedAt := none }

/-- An assignment owned by teacher `t1` holding `sub0`. -/
def asg0 : Assignment :=
  { _id := "a1", teacherId := "t1", title := "HW1", submissions := [sub0] }

/-- The teacher record for `t1`. -/
def tch0 : Teacher := { _id := "t1", firstName := "Ada", lastName := "L" }

/-- A store holding `asg0` and `tch0`, no notifications. -/
def db0 : DB := { assignments := [asg0], teachers := [tch0],
                  notifications := [] }

/-- The payload of a valid teacher token for `t1`. -/
def pay0 : JwtPayload := { userId := "t1", role := "teacher" }

/-- A fully valid grading request against `asg0`/`sub0`. -/
def req0 : Request :=
  { assignmentId := "a1", submissionId := "s1", cookieToken := some "tok",
    verifyResult := some pay0,
    body := some { grade := some (JsonValue.jnum 85),
                   feedback := some "Good work" } }

/-- The same request with a grade of `0` and non-empty feedback. -/
def reqZero : Request :=
  { req0 with body := some { grade := some (JsonValue.jnum 0),
                             feedback := some "ok" } }

/-! ### Helper lemmas: the seven short-circuiting checks -/

/-- Check 1: missing `auth-token` cookie. -/
theorem POST_noCookie (req : Request) (db : DB) (f : Faults) (now : Nat)
    (h : req.cookieToken = none) :
    POST req db f now = (errResponse 401 "Unauthorized", db) := by
  unfold POST; rw [h]

/-- Check 2: `verify` throws. -/
theorem POST_badToken (req : Request) (db : DB) (f : Faults) (now : Nat)
    (t : String) (hc : req.cookieToken = some t)
    (hv : req.verifyResult = none) :
    POST req db f now = (errResponse 401 "Invalid token", db) := by
  unfold POST; rw [hc, hv]

/-- Check 3: decoded role is not `"teacher"`. -/
theorem POST_wrongRole (req : Request) (db : DB) (f : Faults) (now : Nat)
    (t : String) (d : JwtPayload) (hc : req.cookieToken = some t)
    (hv : req.verifyResult = some d) (hr : d.role ≠ "teacher") :
    POST req db f now =
      (errResponse 403 "Access denied - only teachers can grade assignments",
        db) := by
  unfold POST; simp only [hc, hv]; rw [if_pos hr]

/-- Check 4: missing grade or falsy feedback. -/
theorem POST_badBody (req : Request) (db : DB) (f : Faults) (now : Nat)
    (t : String) (d : JwtPayload) (b : Body) (hc : req.cookieToken = some t)
    (hv : req.verifyResult = some d) (hr : d.role = "teacher")
    (hb : req.body = some b)
    (hbad : b.grade = none ∨ feedbackTruthy b.feedback = false) :
    POST req db f now =
      (errResponse 400 "Grade and feedback are required", db) := by
  unfold POST
  simp only [hc, hv, hb]
  rw [if_neg (fun hne => hne hr), if_pos hbad]

/-- Check 5: assignment lookup returns nothing. -/
theorem POST_noAssignment (req : Request) (db : DB) (f : Faults) (now : Nat)
    (t : String) (d : JwtPayload) (b : Body) (hc : req.cookieToken = some t)
    (hv : req.verifyResult = some d) (hr : d.role = "teacher")
    (hb : req.body = some b)
    (hok : ¬(b.grade = none ∨ feedbackTruthy b.feedback = false))
    (hcf : f.connectFails = false) (haf : f.findAssignmentFails = false)
    (ha : findAssignment db req.assignmentId = none) :
    POST req db f now = (errResponse 404 "Assignment not found", db) := by
  unfold POST
  simp only [hc, hv, hb]
  rw [if_neg (fun hne => hne hr), if_neg hok]
  simp [hcf, haf, ha]

/-- Check 6: the caller does not own the assignment. -/
theorem POST_notOwner (req : Request) (db : DB) (f : Faults) (now : Nat)
    (t : String) (d : JwtPayload) (b : Body) (a : Assignment)
    (hc : req.cookieToken = some t)
    (hv : req.verifyResult = some d) (hr : d.role = "teacher")
    (hb : req.body = some b)
    (hok : ¬(b.grade = none ∨ feedbackTruthy b.feedback = false))
    (hcf : f.connectFails = false) (haf : f.findAssignmentFails = false)
    (ha : findAssignment db req.assignmentId = some a)
    (hown : a.teacherId ≠ d.userId) :
    POST req db f now =
      (errResponse 403 "Not authorized to grade this assignment", db) := by
  unfold POST
  simp only [hc, hv, hb]
  rw [if_neg (fun hne => hne hr), if_neg hok]
  simp [hcf, haf, ha, hown]

/-- Check 7: submission not found inside the assignment. -/
theorem POST_noSubmission (req : Request) (db : DB) (f : Faults) (now : Nat)
    (t : String) (d : JwtPayload) (b : Body) (a : Assignment)
    (hc : req.cookieToken = some t)
    (hv : req.verifyResult = some d) (hr : d.role = "teacher")
    (hb : req.body = some b)
    (hok : ¬(b.grade = none ∨ feedbackTruthy b.feedback = false))
    (hcf : f.connectFails = false) (haf : f.findAssignmentFails = false)
    (ha : findAssignment db req.assignmentId = some a)
    (hown : a.teacherId = d.userId)
    (hs : findSubmission a req.submissionId = none) :
    POST req db f now = (errResponse 404 "Submission not found", db) := by
  unfold POST
  simp only [hc, hv, hb]
  rw [if_neg (fun hne => hne hr), if_neg hok]
  simp [hcf, haf, ha, hown, hs]

/-! ### Helper lemmas: state projections and the happy path -/

/-- Saving an assignment does not touch the teacher collection. -/
theorem findTeacher_saveAssignment (db : DB) (a : Assignment) (tid : String) :
    findTeacher (saveAssignment db a) tid = findTeacher db tid := rfl

/-- Saving an assignment does not touch the notification collection. -/
theorem saveAssignment_notifications (db : DB) (a : Assignment) :
    (saveAssignment db a).notifications = db.notifications := rfl

/-- Replacing the notification collection does not touch the assignments. -/
theorem findAssignment_setNotifications (db : DB) (l : List Notification)
    (aid : String) :
    findAssignment { db with notifications := l } aid =
      findAssignment db aid := rfl

/-- Replacing the notification collection does not touch the teachers. -/
theorem findTeacher_setNotifications (db : DB) (l : List Notification)
    (tid : String) :
    findTeacher { db with notifications := l } tid = findTeacher db tid := rfl

/-- Once all seven checks pass and the save succeeds, the outcome is
determined by the teacher lookup and the notification write alone. -/
theorem POST_happy (req : Request) (db : DB) (f : Faults) (now : Nat)
    (t : String) (d : JwtPayload) (g : JsonValue) (fb : String)
    (a : Assignment) (s : Submission)
    (hc : req.cookieToken = some t)
    (hv : req.verifyResult = some d)
    (hr : d.role = "teacher")
    (hb : req.body = some { grade := some g, feedback := some fb })
    (hfb : fb ≠ "")
    (hcf : f.connectFails = false) (haf : f.findAssignmentFails = false)
    (hsf : f.saveFails = false)
    (ha : findAssignment db req.assignmentId = some a)
    (hown : a.teacherId = d.userId)
    (hs : findSubmission a req.submissionId = some s) :
    POST req db f now =
      (if f.findTeacherFails then
        (serverError, savedDB db a req.submissionId g fb now)
      else
        match findTeacher db d.userId with
        | none =>
          (successResponse (gradeSubmission s g fb now),
            savedDB db a req.submissionId g fb now)
        | some teacher =>
          if f.createNotificationFails then
            (serverError, savedDB db a req.submissionId g fb now)
          else
            (successResponse (gradeSubmission s g fb now),
              { savedDB db a req.submissionId g fb now
                with notifications := db.notifications ++
                  [mkNotification teacher d.userId s.studentId a.title
                     a._id] })) := by
  unfold POST
  simp [hc, hv, hb, ha, hs, hcf, haf, hsf, hr, hown, feedbackTruthy, hfb,
    findTeacher_saveAssignment, saveAssignment_notifications, gradeSubmission,
    savedDB, gradedAssignment]

/-- The assignment a successful lookup returns carries the looked-up id. -/
theorem findAssignment_id (db : DB) (aid : String) (a : Assignment)
    (h : findAssignment db aid = some a) : a._id = aid := by
  have hp := List.find?_some h
  simpa using hp

/-- The submission a successful lookup returns carries the looked-up id. -/
theorem findSubmission_id (a : Assignment) (sid : String) (s : Submission)
    (h : findSubmission a sid = some s) : s._id = sid := by
  have hp := List.find?_some h
  simpa using hp

/-- Looking a submission up after the grading mutation returns the mutated
form of whatever the lookup returned before. -/
theorem find_updateSubmissions (subs : List Submission) (sid : String)
    (g : JsonValue) (fb : String) (now : Nat) :
    (updateSubmissions subs sid g fb now).find? (fun x => x._id == sid) =
      (subs.find? (fun x => x._id == sid)).map
        (fun x => gradeSubmission x g fb now) := by
  induction subs with
  | nil => rfl
  | cons h tl ih =>
    simp only [updateSubmissions, List.map_cons]
    by_cases hid : h._id = sid
    · rw [if_pos (by simp [hid]),
        List.find?_cons_of_pos _ (by simp [gradeSubmission, hid]),
        List.find?_cons_of_pos _ (by simp [hid])]
      rfl
    · rw [if_neg (by simp [hid]),
        List.find?_cons_of_neg _ (by simp [hid]),
        List.find?_cons_of_neg _ (by simp [hid])]
      exact ih

/-- Looking a submission up in the graded aggregate. -/
theorem findSubmission_gradedAssignment (a : Assignment) (sid : String)
    (g : JsonValue) (fb : String) (now : Nat) :
    findSubmission (gradedAssignment a sid g fb now) sid =
      (findSubmission a sid).map (fun x => gradeSubmission x g fb now) := by
  unfold findSubmission gradedAssignment
  exact find_updateSubmissions a.submissions sid g fb now

/-- A full-replace save makes the lookup at the saved id return the saved
aggregate, whenever the lookup succeeded before. -/
theorem find_map_replace (l : List Assignment) (a2 : Assignment)
    (aid : String) (hid : a2._id = aid) :
    (l.map (fun x => if x._id == a2._id then a2 else x)).find?
        (fun x => x._id == aid) =
      (l.find? (fun x => x._id == aid)).map (fun _ => a2) := by
  induction l with
  | nil => rfl
  | cons h tl ih =>
    simp only [List.map_cons]
    by_cases hx : h._id = aid
    · rw [if_pos (by simp [hid, hx]),
        List.find?_cons_of_pos _ (by simp [hid]),
        List.find?_cons_of_pos _ (by simp [hx])]
      rfl
    · rw [if_neg (by simp [hid, hx]),
        List.find?_cons_of_neg _ (by simp [hx]),
        List.find?_cons_of_neg _ (by simp [hx])]
      exact ih

/-- Looking the assignment up again after the save returns the saved
aggregate. -/
theorem findAssignment_saveAssignment_self (db : DB) (a2 : Assignment)
    (aid : String) (hid : a2._id = aid) :
    findAssignment (saveAssignment db a2) aid =
      (findAssignment db aid).map (fun _ => a2) := by
  unfold findAssignment saveAssignment
  exact find_map_replace db.assignments a2 aid hid

/-- Every execution either returns 200, returns the generic 500, or reports
a classified failure while leaving the store untouched. -/
theorem POST_state_cases (req : Request) (db : DB) (f : Faults) (now : Nat) :
    (POST req db f now).1.status = 200 ∨ (POST req db f now).1.status = 500 ∨
      ((POST req db f now).2 = db ∧ (POST req db f now).1.success = false) := by
  unfold POST
  repeat' split <;> try simp [errResponse, serverError, successResponse]

/-- Every 500 response is the single generic one. -/
theorem POST_500_generic (req : Request) (db : DB) (f : Faults) (now : Nat)
    (h : (POST req db f now).1.status = 500) :
    (POST req db f now).1 = serverError := by
  revert h
  unfold POST
  repeat' split <;> try simp [errResponse, serverError, successResponse]

/-- If the save throws, the store is untouched (in particular no
notification is created). -/
theorem POST_saveFails_state (req : Request) (db : DB) (f : Faults)
    (now : Nat) (h : f.saveFails = true) :
    (POST req db f now).2 = db := by
  unfold POST
  repeat' split
  all_goals rfl

/-- If the teacher lookup throws, no notification is created. -/
theorem POST_teacherFail_notifications (req : Request) (db : DB) (f : Faults)
    (now : Nat) (h : f.findTeacherFails = true) :
    (POST req db f now).2.notifications = db.notifications := by
  unfold POST
  repeat' split
  all_goals rfl

/-- If the notification write throws, the notification collection is
unchanged. -/
theorem POST_createFail_notifications (req : Request) (db : DB) (f : Faults)
    (now : Nat) (h : f.createNotificationFails = true) :
    (POST req db f now).2.notifications = db.notifications := by
  unfold POST
  repeat' split
  all_goals rfl

/-- A new notification only ever appears in a 200 execution whose final
store contains the saved aggregate. -/
theorem POST_new_notification_means_saved (req : Request) (db : DB)
    (f : Faults) (now : Nat)
    (h : (POST req db f now).2.notifications ≠ db.notifications) :
    (POST req db f now).1.status = 200 ∧
    ∃ a2, (POST req db f now).2.assignments =
      (saveAssignment db a2).assignments := by
  revert h
  unfold POST
  repeat' split
  all_goals intro h
  all_goals try exact absurd rfl h
  all_goals exact ⟨rfl, ⟨_, rfl⟩⟩

/-! ### Further fixtures for counterexamples and witnesses -/

/-- The store `db0` without any teacher record. -/
def dbNoT : DB := { assignments := [asg0], teachers := [],
                    notifications := [] }

/-- The valid request with the auth cookie removed. -/
def reqNoCookie : Request := { req0 with cookieToken := none }

/-- A token payload with a non-teacher role. -/
def payStudent : JwtPayload := { userId := "t1", role := "student" }

/-- The valid request, but the token decodes to a student role. -/
def reqStudent : Request := { req0 with verifyResult := some payStudent }

/-- The valid request whose body fails to parse as JSON. -/
def reqBadJson : Request := { req0 with body := none }

/-- The valid request with the grade field absent. -/
def reqNoGrade : Request :=
  { req0 with body := some { grade := none, feedback := some "ok" } }

/-- The valid request with a `null` grade. -/
def reqNullGrade : Request :=
  { req0 with body := some { grade := some JsonValue.jnull,
                             feedback := some "ok" } }

/-! ### The claims -/

/-- C1 (counterexample): a request that passes all seven checks and whose
save succeeds (it returns 200 when nothing throws) does NOT return 200 when
the teacher-profile lookup or the notification creation throws — both give
the generic 500 instead. -/
theorem grading_200_not_preserved_by_lookup_failure :
    (POST req0 db0 noFaults 7).1.status = 200 ∧
    (POST req0 db0 { noFaults with findTeacherFails := true } 7).1.status
      = 500 ∧
    (POST req0 db0 { noFaults with findTeacherFails := true } 7).1.status
      ≠ 200 ∧
    (POST req0 db0 { noFaults with createNotificationFails := true } 7).1.status
      = 500 ∧
    (POST req0 db0 { noFaults with createNotificationFails := true } 7).1.status
      ≠ 200 := by
  decide

/-- C1 (amended): if all seven checks pass and the save succeeds, the
absence of the teacher record does not change the outcome — the handler
still returns the 200 success response, with no notification created; a
thrown failure in the teacher lookup or in the notification creation is
instead caught by the handler's generic catch: the response is the 500
"Failed to grade submission" one, while the graded aggregate stays
persisted and no notification is created. -/
theorem teacher_absence_vs_lookup_failure
    (req : Request) (db : DB) (now : Nat)
    (t : String) (d : JwtPayload) (g : JsonValue) (fb : String)
    (a : Assignment) (s : Submission)
    (hc : req.cookieToken = some t)
    (hv : req.verifyResult = some d)
    (hr : d.role = "teacher")
    (hb : req.body = some { grade := some g, feedback := some fb })
    (hfb : fb ≠ "")
    (ha : findAssignment db req.assignmentId = some a)
    (hown : a.teacherId = d.userId)
    (hs : findSubmission a req.submissionId = some s) :
    (findTeacher db d.userId = none →
      POST req db noFaults now =
        (successResponse (gradeSubmission s g fb now),
          savedDB db a req.submissionId g fb now)) ∧
    (POST req db { noFaults with findTeacherFails := true } now =
      (serverError, savedDB db a req.submissionId g fb now)) ∧
    ((POST req db { noFaults with createNotificationFails := true }
        now).2.notifications = db.notifications) ∧
    (∀ tch, findTeacher db d.userId = some tch →
      POST req db { noFaults with createNotificationFails := true } now =
        (serverError, savedDB db a req.submissionId g fb now)) := by
  refine ⟨?_, ?_, ?_, ?_⟩
  · intro hnone
    rw [POST_happy req db noFaults now t d g fb a s hc hv hr hb hfb rfl rfl
      rfl ha hown hs, hnone]
    rfl
  · rw [POST_happy req db { noFaults with findTeacherFails := true } now t d
      g fb a s hc hv hr hb hfb rfl rfl rfl ha hown hs]
    rfl
  · exact POST_createFail_notifications req db _ now rfl
  · intro tch htch
    rw [POST_happy req db { noFaults with createNotificationFails := true }
      now t d g fb a s hc hv hr hb hfb rfl rfl rfl ha hown hs, htch]
    rfl

/-- Witness for the amended C1: on the concrete store lacking the teacher
record, the concrete valid request still yields the full success outcome. -/
theorem teacher_absence_vs_lookup_failure_witness :
    POST req0 dbNoT noFaults 7 =
      (successResponse (gradeSubmission sub0 (JsonValue.jnum 85)
        "Good work" 7),
       savedDB dbNoT asg0 "s1" (JsonValue.jnum 85) "Good work" 7) :=
  (teacher_absence_vs_lookup_failure req0 dbNoT 7 "tok" pay0
    (JsonValue.jnum 85) "Good work" asg0 sub0 rfl rfl rfl rfl (by decide)
    (by decide) rfl (by decide)).1 (by decide)

/-- C2: a request that fails one of the seven validation/authorization
checks (its response status is neither the 200 success nor the generic 500)
leaves the stored state completely unchanged — nothing is saved and no
notification is created — and reports failure. -/
theorem failed_check_performs_no_write (req : Request) (db : DB) (f : Faults)
    (now : Nat)
    (h200 : (POST req db f now).1.status ≠ 200)
    (h500 : (POST req db f now).1.status ≠ 500) :
    (POST req db f now).2 = db ∧ (POST req db f now).1.success = false :=
  ((POST_state_cases req db f now).resolve_left h200).resolve_left h500

/-- Witness for C2 at a concrete failing request (missing cookie). -/
theorem failed_check_performs_no_write_witness :
    (POST reqNoCookie db0 noFaults 3).2 = db0 ∧
    (POST reqNoCookie db0 noFaults 3).1.success = false :=
  failed_check_performs_no_write reqNoCookie db0 noFaults 3 (by decide)
    (by decide)

/-- C4: the failure response is determined by the first failing check in
the fixed order — missing cookie 401 "Unauthorized"; failing verification
401 "Invalid token"; non-teacher role 403 "Access denied - only teachers
can grade assignments"; missing grade or falsy feedback 400 "Grade and
feedback are required"; unknown assignment 404 "Assignment not found";
non-owner 403 "Not authorized to grade this assignment"; unknown submission
404 "Submission not found" — independently of everything that would be
consulted by any later check. -/
theorem first_failing_check_determines_response (req : Request) (db : DB)
    (f : Faults) (now : Nat) :
    (req.cookieToken = none →
      (POST req db f now).1 = errResponse 401 "Unauthorized") ∧
    (∀ t, req.cookieToken = some t → req.verifyResult = none →
      (POST req db f now).1 = errResponse 401 "Invalid token") ∧
    (∀ t d, req.cookieToken = some t → req.verifyResult = some d →
      d.role ≠ "teacher" →
      (POST req db f now).1 = errResponse 403
        "Access denied - only teachers can grade assignments") ∧
    (∀ t d b, req.cookieToken = some t → req.verifyResult = some d →
      d.role = "teacher" → req.body = some b →
      (b.grade = none ∨ feedbackTruthy b.feedback = false) →
      (POST req db f now).1 = errResponse 400
        "Grade and feedback are required") ∧
    (∀ t d b, req.cookieToken = some t → req.verifyResult = some d →
      d.role = "teacher" → req.body = some b →
      ¬(b.grade = none ∨ feedbackTruthy b.feedback = false) →
      f.connectFails = false → f.findAssignmentFails = false →
      findAssignment db req.assignmentId = none →
      (POST req db f now).1 = errResponse 404 "Assignment not found") ∧
    (∀ t d b a, req.cookieToken = some t → req.verifyResult = some d →
      d.role = "teacher" → req.body = some b →
      ¬(b.grade = none ∨ feedbackTruthy b.feedback = false) →
      f.connectFails = false → f.findAssignmentFails = false →
      findAssignment db req.assignmentId = some a →
      a.teacherId ≠ d.userId →
      (POST req db f now).1 = errResponse 403
        "Not authorized to grade this assignment") ∧
    (∀ t d b a, req.cookieToken = some t → req.verifyResult = some d →
      d.role = "teacher" → req.body = some b →
      ¬(b.grade = none ∨ feedbackTruthy b.feedback = false) →
      f.connectFails = false → f.findAssignmentFails = false →
      findAssignment db req.assignmentId = some a →
      a.teacherId = d.userId →
      findSubmission a req.submissionId = none →
      (POST req db f now).1 = errResponse 404 "Submission not found") := by
  refine ⟨fun h => ?_, fun t hc hv => ?_, fun t d hc hv hr => ?_,
    fun t d b hc hv hr hb hbad => ?_,
    fun t d b hc hv hr hb hok hcf haf ha => ?_,
    fun t d b a hc hv hr hb hok hcf haf ha hown => ?_,
    fun t d b a hc hv hr hb hok hcf haf ha hown hsub => ?_⟩
  · rw [POST_noCookie req db f now h]
  · rw [POST_badToken req db f now t hc hv]
  · rw [POST_wrongRole req db f now t d hc hv hr]
  · rw [POST_badBody req db f now t d b hc hv hr hb hbad]
  · rw [POST_noAssignment req db f now t d b hc hv hr hb hok hcf haf ha]
  · rw [POST_notOwner req db f now t d b a hc hv hr hb hok hcf haf ha hown]
  · rw [POST_noSubmission req db f now t d b a hc hv hr hb hok hcf haf ha
      hown hsub]

/-- Witness for C4 at a concrete request with a non-teacher role. -/
theorem first_failing_check_determines_response_witness :
    (POST reqStudent db0 noFaults 2).1 = errResponse 403
      "Access denied - only teachers can grade assignments" :=
  (first_failing_check_determines_response reqStudent db0 noFaults 2).2.2.1
    "tok" payStudent rfl rfl (by decide)

/-- C3: when all seven checks pass and nothing throws, the handler returns
200 with `success: true` and the updated submission, whose grade and
feedback are the body's values, whose status is "graded" and whose
`gradedAt` is the (non-null) current time; the store afterwards holds the
fully saved aggregate. -/
theorem grading_success_updates_and_responds
    (req : Request) (db : DB) (now : Nat)
    (t : String) (d : JwtPayload) (g : JsonValue) (fb : String)
    (a : Assignment) (s : Submission)
    (hc : req.cookieToken = some t)
    (hv : req.verifyResult = some d)
    (hr : d.role = "teacher")
    (hb : req.body = some { grade := some g, feedback := some fb })
    (hfb : fb ≠ "")
    (ha : findAssignment db req.assignmentId = some a)
    (hown : a.teacherId = d.userId)
    (hs : findSubmission a req.submissionId = some s) :
    (POST req db noFaults now).1 =
      successResponse (gradeSubmission s g fb now) ∧
    (POST req db noFaults now).2.assignments =
      (savedDB db a req.submissionId g fb now).assignments ∧
    (gradeSubmission s g fb now).grade = some g ∧
    (gradeSubmission s g fb now).feedback = some fb ∧
    (gradeSubmission s g fb now).status = "graded" ∧
    (gradeSubmission s g fb now).gradedAt = some now ∧
    (gradeSubmission s g fb now).gradedAt ≠ none ∧
    (successResponse (gradeSubmission s g fb now)).success = true := by
  rw [POST_happy req db noFaults now t d g fb a s hc hv hr hb hfb rfl rfl
    rfl ha hown hs]
  cases hT : findTeacher db d.userId <;>
    simp [noFaults, gradeSubmission, successResponse, savedDB]

/-- Witness for C3 at the concrete valid request. -/
theorem grading_success_updates_and_responds_witness :
    (POST req0 db0 noFaults 7).1 =
      successResponse (gradeSubmission sub0 (JsonValue.jnum 85)
        "Good work" 7) ∧
    (POST req0 db0 noFaults 7).2.assignments =
      (savedDB db0 asg0 "s1" (JsonValue.jnum 85) "Good work" 7).assignments :=
  ⟨(grading_success_updates_and_responds req0 db0 7 "tok" pay0
      (JsonValue.jnum 85) "Good work" asg0 sub0 rfl rfl rfl rfl (by decide)
      (by decide) rfl (by decide)).1,
   (grading_success_updates_and_responds req0 db0 7 "tok" pay0
      (JsonValue.jnum 85) "Good work" asg0 sub0 rfl rfl rfl rfl (by decide)
      (by decide) rfl (by decide)).2.1⟩

/-- C5: body validation only rejects an absent grade or a falsy feedback —
under a valid teacher token, an absent grade (even with feedback present)
or an empty feedback yields the 400 response with no write, while the
concrete boundary request with grade `0` and non-empty feedback passes all
validation and succeeds with 200. -/
theorem body_validation_boundary (req : Request) (db : DB) (f : Faults)
    (now : Nat) (t : String) (d : JwtPayload)
    (hc : req.cookieToken = some t) (hv : req.verifyResult = some d)
    (hr : d.role = "teacher") :
    (∀ b, req.body = some b → b.grade = none →
      POST req db f now =
        (errResponse 400 "Grade and feedback are required", db)) ∧
    (∀ b, req.body = some b → feedbackTruthy b.feedback = false →
      POST req db f now =
        (errResponse 400 "Grade and feedback are required", db)) ∧
    (POST reqZero db0 noFaults 5).1.status = 200 ∧
    (POST reqZero db0 noFaults 5).1.submission =
      some (gradeSubmission sub0 (JsonValue.jnum 0) "ok" 5) := by
  refine ⟨fun b hb hg =>
      POST_badBody req db f now t d b hc hv hr hb (Or.inl hg),
    fun b hb hf =>
      POST_badBody req db f now t d b hc hv hr hb (Or.inr hf),
    by decide, by decide⟩

/-- Witness for C5 at the concrete request with an absent grade. -/
theorem body_validation_boundary_witness :
    POST reqNoGrade db0 noFaults 1 =
      (errResponse 400 "Grade and feedback are required", db0) :=
  (body_validation_boundary reqNoGrade db0 noFaults 1 "tok" pay0 rfl rfl
    rfl).1 { grade := none, feedback := some "ok" } rfl rfl

/-- A connection failure after validation lands in the generic catch. -/
theorem POST_connectFails_response (req : Request) (db : DB) (f : Faults)
    (now : Nat) (t : String) (d : JwtPayload) (b : Body)
    (hc : req.cookieToken = some t) (hv : req.verifyResult = some d)
    (hr : d.role = "teacher") (hb : req.body = some b)
    (hok : ¬(b.grade = none ∨ feedbackTruthy b.feedback = false))
    (h : f.connectFails = true) :
    POST req db f now = (serverError, db) := by
  unfold POST
  simp only [hc, hv, hb]
  rw [if_neg (fun hne => hne hr), if_neg hok]
  simp [h]

/-- A throwing assignment lookup lands in the generic catch. -/
theorem POST_findAssignmentFails_response (req : Request) (db : DB)
    (f : Faults) (now : Nat) (t : String) (d : JwtPayload) (b : Body)
    (hc : req.cookieToken = some t) (hv : req.verifyResult = some d)
    (hr : d.role = "teacher") (hb : req.body = some b)
    (hok : ¬(b.grade = none ∨ feedbackTruthy b.feedback = false))
    (hcf : f.connectFails = false) (h : f.findAssignmentFails = true) :
    POST req db f now = (serverError, db) := by
  unfold POST
  simp only [hc, hv, hb]
  rw [if_neg (fun hne => hne hr), if_neg hok]
  simp [hcf, h]

/-- A throwing save lands in the generic catch, with nothing persisted. -/
theorem POST_saveFails_response (req : Request) (db : DB) (f : Faults)
    (now : Nat) (t : String) (d : JwtPayload) (b : Body) (a : Assignment)
    (s : Submission)
    (hc : req.cookieToken = some t) (hv : req.verifyResult = some d)
    (hr : d.role = "teacher") (hb : req.body = some b)
    (hok : ¬(b.grade = none ∨ feedbackTruthy b.feedback = false))
    (hcf : f.connectFails = false) (haf : f.findAssignmentFails = false)
    (ha : findAssignment db req.assignmentId = some a)
    (hown : a.teacherId = d.userId)
    (hs : findSubmission a req.submissionId = some s)
    (h : f.saveFails = true) :
    POST req db f now = (serverError, db) := by
  unfold POST
  simp only [hc, hv, hb]
  rw [if_neg (fun hne => hne hr), if_neg hok]
  simp [hcf, haf, ha, hown, hs, h]

/-- C7: every 500 response is the single generic "Failed to grade
submission" one; a storage failure at any step after validation (the
connection, the assignment lookup, or the save) is caught and mapped to
exactly that response; and the error string of any response is drawn from
the fixed set of eight public messages — no internal error detail ever
appears. -/
theorem catch_all_maps_to_generic_500 (req : Request) (db : DB) (f : Faults)
    (now : Nat) :
    ((POST req db f now).1.status = 500 →
      (POST req db f now).1 = serverError) ∧
    serverError = errResponse 500 "Failed to grade submission" ∧
    (∀ t d b, req.cookieToken = some t → req.verifyResult = some d →
      d.role = "teacher" → req.body = some b →
      ¬(b.grade = none ∨ feedbackTruthy b.feedback = false) →
      f.connectFails = true → POST req db f now = (serverError, db)) ∧
    (∀ t d b, req.cookieToken = some t → req.verifyResult = some d →
      d.role = "teacher" → req.body = some b →
      ¬(b.grade = none ∨ feedbackTruthy b.feedback = false) →
      f.connectFails = false → f.findAssignmentFails = true →
      POST req db f now = (serverError, db)) ∧
    (∀ t d b a s, req.cookieToken = some t → req.verifyResult = some d →
      d.role = "teacher" → req.body = some b →
      ¬(b.grade = none ∨ feedbackTruthy b.feedback = false) →
      f.connectFails = false → f.findAssignmentFails = false →
      findAssignment db req.assignmentId = some a →
      a.teacherId = d.userId →
      findSubmission a req.submissionId = some s →
      f.saveFails = true → POST req db f now = (serverError, db)) ∧
    ((POST req db f now).1.error = none ∨
      (POST req db f now).1.error ∈
        [some "Unauthorized", some "Invalid token",
         some "Access denied - only teachers can grade assignments",
         some "Grade and feedback are required",
         some "Assignment not found",
         some "Not authorized to grade this assignment",
         some "Submission not found",
         some "Failed to grade submission"]) := by
  refine ⟨POST_500_generic req db f now, rfl,
    fun t d b hc hv hr hb hok h =>
      POST_connectFails_response req db f now t d b hc hv hr hb hok h,
    fun t d b hc hv hr hb hok hcf h =>
      POST_findAssignmentFails_response req db f now t d b hc hv hr hb hok
        hcf h,
    fun t d b a s hc hv hr hb hok hcf haf ha hown hs h =>
      POST_saveFails_response req db f now t d b a s hc hv hr hb hok hcf
        haf ha hown hs h, ?_⟩
  unfold POST
  repeat' split
  all_goals simp [errResponse, serverError, successResponse]

/-- Witness for C7 at a concrete request whose body fails to parse. -/
theorem catch_all_maps_to_generic_500_witness :
    (POST reqBadJson db0 noFaults 4).1 = serverError :=
  (catch_all_maps_to_generic_500 reqBadJson db0 noFaults 4).1 (by decide)

/-- C9: a request passing the cookie, token and role checks whose body
cannot be parsed as JSON lands in the generic catch: 500 "Failed to grade
submission" (not the 400 body-validation response), with no write. -/
theorem malformed_body_is_generic_500 (req : Request) (db : DB) (f : Faults)
    (now : Nat) (t : String) (d : JwtPayload)
    (hc : req.cookieToken = some t) (hv : req.verifyResult = some d)
    (hr : d.role = "teacher") (hb : req.body = none) :
    POST req db f now = (serverError, db) ∧
    serverError ≠ errResponse 400 "Grade and feedback are required" := by
  constructor
  · unfold POST
    simp only [hc, hv, hb]
    rw [if_neg (fun hne => hne hr)]
  · decide

/-- Witness for C9 at the concrete unparsable-body request. -/
theorem malformed_body_is_generic_500_witness :
    POST reqBadJson db0 noFaults 1 = (serverError, db0) :=
  (malformed_body_is_generic_500 reqBadJson db0 noFaults 1 "tok" pay0 rfl
    rfl rfl rfl).1

/-- C8: the notification write happens only after the assignment save has
completed — if the save throws, the store (hence the notification
collection) is untouched; if the teacher lookup or the notification
creation throws after the save, no notification is created; and whenever a
notification was created, the execution returned 200 and the final store
contains a saved aggregate. -/
theorem notification_only_after_save (req : Request) (db : DB) (f : Faults)
    (now : Nat) :
    (f.saveFails = true → (POST req db f now).2 = db) ∧
    (f.findTeacherFails = true →
      (POST req db f now).2.notifications = db.notifications) ∧
    (f.createNotificationFails = true →
      (POST req db f now).2.notifications = db.notifications) ∧
    ((POST req db f now).2.notifications ≠ db.notifications →
      (POST req db f now).1.status = 200 ∧
      ∃ a2, (POST req db f now).2.assignments =
        (saveAssignment db a2).assignments) :=
  ⟨POST_saveFails_state req db f now,
   POST_teacherFail_notifications req db f now,
   POST_createFail_notifications req db f now,
   POST_new_notification_means_saved req db f now⟩

/-- Witness for C8: with a failing save on the concrete valid request, the
store is unchanged. -/
theorem notification_only_after_save_witness :
    (POST req0 db0 { noFaults with saveFails := true } 7).2 = db0 :=
  (notification_only_after_save req0 db0
    { noFaults with saveFails := true } 7).1 rfl

/-- C10: the handler never type- or range-checks the grade — any defined
grade value (null, a string, a negative or arbitrarily large number)
together with non-empty feedback passes validation, the request succeeds
with 200, and exactly that value is persisted verbatim on the stored
submission. -/
theorem grade_value_unchecked_and_persisted
    (req : Request) (db : DB) (now : Nat)
    (t : String) (d : JwtPayload) (g : JsonValue) (fb : String)
    (a : Assignment) (s : Submission)
    (hc : req.cookieToken = some t)
    (hv : req.verifyResult = some d)
    (hr : d.role = "teacher")
    (hb : req.body = some { grade := some g, feedback := some fb })
    (hfb : fb ≠ "")
    (ha : findAssignment db req.assignmentId = some a)
    (hown : a.teacherId = d.userId)
    (hs : findSubmission a req.submissionId = some s) :
    (POST req db noFaults now).1.status = 200 ∧
    findAssignment (POST req db noFaults now).2 req.assignmentId =
      some (gradedAssignment a req.submissionId g fb now) ∧
    findSubmission (gradedAssignment a req.submissionId g fb now)
        req.submissionId = some (gradeSubmission s g fb now) ∧
    (gradeSubmission s g fb now).grade = some g := by
  have haid : a._id = req.assignmentId :=
    findAssignment_id db req.assignmentId a ha
  have hga : (gradedAssignment a req.submissionId g fb now)._id =
      req.assignmentId := haid
  have hfa : findAssignment (savedDB db a req.submissionId g fb now)
      req.assignmentId = some (gradedAssignment a req.submissionId g fb now)
      := by
    unfold savedDB
    rw [findAssignment_saveAssignment_self db _ req.assignmentId hga, ha]
    rfl
  have hfs : findSubmission (gradedAssignment a req.submissionId g fb now)
      req.submissionId = some (gradeSubmission s g fb now) := by
    rw [findSubmission_gradedAssignment, hs]
    rfl
  rw [POST_happy req db noFaults now t d g fb a s hc hv hr hb hfb rfl rfl
    rfl ha hown hs]
  cases hT : findTeacher db d.userId <;>
    simp [noFaults, successResponse, hfa, hfs, gradeSubmission,
      findAssignment_setNotifications]

/-- Witness for C10 at the concrete request carrying a `null` grade. -/
theorem grade_value_unchecked_and_persisted_witness :
    (POST reqNullGrade db0 noFaults 6).1.status = 200 ∧
    findAssignment (POST reqNullGrade db0 noFaults 6).2 "a1" =
      some (gradedAssignment asg0 "s1" JsonValue.jnull "ok" 6) ∧
    (gradeSubmission sub0 JsonValue.jnull "ok" 6).grade =
      some JsonValue.jnull :=
  ⟨(grade_value_unchecked_and_persisted reqNullGrade db0 6 "tok" pay0
      JsonValue.jnull "ok" asg0 sub0 rfl rfl rfl rfl (by decide) (by decide)
      rfl (by decide)).1,
   (grade_value_unchecked_and_persisted reqNullGrade db0 6 "tok" pay0
      JsonValue.jnull "ok" asg0 sub0 rfl rfl rfl rfl (by decide) (by decide)
      rfl (by decide)).2.1,
   (grade_value_unchecked_and_persisted reqNullGrade db0 6 "tok" pay0
      JsonValue.jnull "ok" asg0 sub0 rfl rfl rfl rfl (by decide) (by decide)
      rfl (by decide)).2.2.2⟩

/-- Grading an already graded submission overwrites all grading fields. -/
theorem gradeSubmission_gradeSubmission (s : Submission) (g1 g2 : JsonValue)
    (fb1 fb2 : String) (n1 n2 : Nat) :
    gradeSubmission (gradeSubmission s g1 fb1 n1) g2 fb2 n2 =
      gradeSubmission s g2 fb2 n2 := rfl

/-- C6: re-grading is always allowed with silent overwrite — running the
same successful grading request a second time returns 200 again, the second
run overwrites the persisted grade, feedback and gradedAt (no
duplicate-submission or already-graded error exists), and each run with an
existing teacher record appends its own notification, leaving two
notifications after two runs. -/
theorem regrade_always_allowed_with_overwrite
    (req : Request) (db : DB) (now1 now2 : Nat)
    (t : String) (d : JwtPayload) (g : JsonValue) (fb : String)
    (a : Assignment) (s : Submission) (tch : Teacher)
    (hc : req.cookieToken = some t)
    (hv : req.verifyResult = some d)
    (hr : d.role = "teacher")
    (hb : req.body = some { grade := some g, feedback := some fb })
    (hfb : fb ≠ "")
    (ha : findAssignment db req.assignmentId = some a)
    (hown : a.teacherId = d.userId)
    (hs : findSubmission a req.submissionId = some s)
    (ht : findTeacher db d.userId = some tch) :
    (POST req db noFaults now1).1.status = 200 ∧
    (POST req (POST req db noFaults now1).2 noFaults now2).1.status = 200 ∧
    (POST req (POST req db noFaults now1).2 noFaults now2).1.submission =
      some (gradeSubmission s g fb now2) ∧
    (∃ a2, findAssignment
        (POST req (POST req db noFaults now1).2 noFaults now2).2
        req.assignmentId = some a2 ∧
      findSubmission a2 req.submissionId =
        some (gradeSubmission s g fb now2)) ∧
    (POST req (POST req db noFaults now1).2 noFaults
        now2).2.notifications.length = db.notifications.length + 2 := by
  have haid : a._id = req.assignmentId :=
    findAssignment_id db req.assignmentId a ha
  have h1 := POST_happy req db noFaults now1 t d g fb a s hc hv hr hb hfb
    rfl rfl rfl ha hown hs
  rw [ht] at h1
  have h1' : POST req db noFaults now1 =
      (successResponse (gradeSubmission s g fb now1),
        { savedDB db a req.submissionId g fb now1 with notifications :=
            db.notifications ++
              [mkNotification tch d.userId s.studentId a.title a._id] }) :=
    h1
  have hga1 : (gradedAssignment a req.submissionId g fb now1)._id =
      req.assignmentId := haid
  have hfa1 : findAssignment (POST req db noFaults now1).2
      req.assignmentId = some (gradedAssignment a req.submissionId g fb now1)
      := by
    rw [h1']
    show findAssignment (savedDB db a req.submissionId g fb now1)
      req.assignmentId = _
    unfold savedDB
    rw [findAssignment_saveAssignment_self db _ req.assignmentId hga1, ha]
    rfl
  have hown1 : (gradedAssignment a req.submissionId g fb now1).teacherId =
      d.userId := hown
  have hs1 : findSubmission (gradedAssignment a req.submissionId g fb now1)
      req.submissionId = some (gradeSubmission s g fb now1) := by
    rw [findSubmission_gradedAssignment, hs]
    rfl
  have ht1 : findTeacher (POST req db noFaults now1).2 d.userId = some tch
      := by
    rw [h1']
    show findTeacher (savedDB db a req.submissionId g fb now1) d.userId = _
    unfold savedDB
    rw [findTeacher_saveAssignment]
    exact ht
  have h2 := POST_happy req (POST req db noFaults now1).2 noFaults now2 t d
    g fb (gradedAssignment a req.submissionId g fb now1)
    (gradeSubmission s g fb now1) hc hv hr hb hfb rfl rfl rfl hfa1 hown1 hs1
  rw [ht1] at h2
  have h2' : POST req (POST req db noFaults now1).2 noFaults now2 =
      (successResponse (gradeSubmission s g fb now2),
        { savedDB (POST req db noFaults now1).2
            (gradedAssignment a req.submissionId g fb now1)
            req.submissionId g fb now2 with notifications :=
          (POST req db noFaults now1).2.notifications ++
            [mkNotification tch d.userId s.studentId a.title a._id] }) :=
    h2
  have hga2 : (gradedAssignment (gradedAssignment a req.submissionId g fb
      now1) req.submissionId g fb now2)._id = req.assignmentId := haid
  refine ⟨by rw [h1']; rfl, by rw [h2']; rfl, by rw [h2']; rfl, ?_, ?_⟩
  · refine ⟨gradedAssignment (gradedAssignment a req.submissionId g fb now1)
      req.submissionId g fb now2, ?_, ?_⟩
    · rw [h2']
      show findAssignment (savedDB (POST req db noFaults now1).2
        (gradedAssignment a req.submissionId g fb now1)
        req.submissionId g fb now2) req.assignmentId = _
      unfold savedDB
      rw [findAssignment_saveAssignment_self _ _ req.assignmentId hga2,
        hfa1]
      rfl
    · rw [findSubmission_gradedAssignment, hs1]
      rfl
  · rw [h2']
    show ((POST req db noFaults now1).2.notifications ++
      [mkNotification tch d.userId s.studentId a.title a._id]).length =
        db.notifications.length + 2
    rw [h1']
    show (db.notifications ++
      [mkNotification tch d.userId s.studentId a.title a._id] ++
      [mkNotification tch d.userId s.studentId a.title a._id]).length =
        db.notifications.length + 2
    simp

/-- Witness for C6 at the concrete valid request run at two times. -/
theorem regrade_always_allowed_with_overwrite_witness :
    (POST req0 db0 noFaults 7).1.status = 200 ∧
    (POST req0 (POST req0 db0 noFaults 7).2 noFaults 9).1.status = 200 ∧
    (POST req0 (POST req0 db0 noFaults 7).2 noFaults 9).1.submission =
      some (gradeSubmission sub0 (JsonValue.jnum 85) "Good work" 9) ∧
    (∃ a2, findAssignment
        (POST req0 (POST req0 db0 noFaults 7).2 noFaults 9).2 "a1" =
          some a2 ∧
      findSubmission a2 "s1" =
        some (gradeSubmission sub0 (JsonValue.jnum 85) "Good work" 9)) ∧
    (POST req0 (POST req0 db0 noFaults 7).2 noFaults
        9).2.notifications.length = db0.notifications.length + 2 :=
  regrade_always_allowed_with_overwrite req0 db0 7 9 "tok" pay0
    (JsonValue.jnum 85) "Good work" asg0 sub0 tch0 rfl rfl rfl rfl
    (by decide) (by decide) rfl (by decide) (by decide)
